import Mathlib

/-!
Verification of the data-acquisition-and-normalization pipeline of
`investment_agent.py`: `fetch_stock_data`, `fetch_news`, `generate_report`.

The embedding models the Python functions over explicit inputs:
- the market-data provider call (`yf.download`) is a function from the
  ticker to either a raised exception (carrying its message) or a price
  series (a list of daily records);
- the news HTTP call (`requests.get`) is a function from the request URL
  to either a raised exception or a response (status code plus a JSON
  body, itself either a parse error or a JSON value);
- JSON values are a small inductive; Python subscripting, `dict.get` and
  iteration are modelled with their raise/return behaviour;
- numeric values are rationals (the `float(...)` coercions in the code extract
  a bare scalar; rounding of binary floats is outside this model).
-/

/-- JSON values, as produced by `response.json()`. -/
inductive Json where
  | str (s : String)
  | num (q : ℚ)
  | bool (b : Bool)
  | null
  | arr (elems : List Json)
  | obj (fields : List (String × Json))
deriving Repr

/-- Key lookup in the field list of a JSON object (first match; parsed JSON
objects carry each key once). -/
def jlookup : List (String × Json) → String → Option Json
  | [], _ => none
  | (k, v) :: rest, key => if k = key then some v else jlookup rest key

/-- Python repr of a JSON value, used when an f-string interpolates a
non-string (`repr` is what `str` delegates to inside containers).
Numeric rendering is over the rational model. -/
def pyRepr : Json → String
  | .str s => "\x27" ++ s ++ "\x27"
  | .num q => toString q
  | .bool b => Bool.rec "False" "True" b
  | .null => "None"
  | .arr elems =>
      "[" ++ String.intercalate ", " (elems.attach.map (fun x => pyRepr x.1)) ++ "]"
  | .obj fields =>
      "\x7b" ++
        String.intercalate ", "
          (fields.attach.map (fun x => "\x27" ++ x.1.1 ++ "\x27: " ++ pyRepr x.1.2)) ++
      "\x7d"
decreasing_by
  · simp_wf
    have := List.sizeOf_lt_of_mem x.2
    omega
  · simp_wf
    have h1 := List.sizeOf_lt_of_mem x.2
    have h2 : sizeOf x.1.2 < sizeOf x.1 := by
      cases x.1
      simp
    omega

/-- Python `str` of a JSON value: a string renders as itself, anything
else as its repr. This is what an f-string interpolation produces. -/
def pyStr : Json → String
  | .str s => s
  | j => pyRepr j

/-- Python subscript `j[key]` with a string key: returns the value from a
dict, raises `KeyError` on a dict without the key, raises `TypeError` on
any non-dict. -/
def jsonIndex (j : Json) (key : String) : Except String Json :=
  match j with
  | .obj fields =>
      match jlookup fields key with
      | some v => .ok v
      | none => .error ("KeyError: \x27" ++ key ++ "\x27")
  | _ => .error "TypeError: value is not subscriptable with a string key"

/-- Python iteration over a JSON value: a list yields its elements, a
string yields its characters (as one-character strings), a dict yields
its keys; numbers, booleans and null raise `TypeError`. -/
def pyIter (j : Json) : Except String (List Json) :=
  match j with
  | .arr elems => .ok elems
  | .str s => .ok (s.toList.map (fun c => Json.str (String.mk [c])))
  | .obj fields => .ok (fields.map (fun p => Json.str p.1))
  | _ => .error "TypeError: value is not iterable"

/-- Python `d.get(key, default)`: the value if the key is present, the
default otherwise; raises `AttributeError` when the receiver is not
a dict. -/
def dictGet (j : Json) (key : String) (default : Json) : Except String Json :=
  match j with
  | .obj fields => .ok ((jlookup fields key).getD default)
  | _ => .error "AttributeError: value has no attribute get"

/-- The body of the comprehension in `fetch_news`: the f-string that
subscripts the article for its title, its source and the nested source
name, then renders title and name separated by a space with the name in
parentheses; each subscript can raise. -/
def formatArticle (art : Json) : Except String String := do
  let title ← jsonIndex art "title"
  let src ← jsonIndex art "source"
  let name ← jsonIndex src "name"
  pure (pyStr title ++ " (" ++ pyStr name ++ ")")

/-- The list comprehension over the articles value: articles are
formatted left to right and the first raise aborts the whole
comprehension. -/
def buildNewsList : List Json → Except String (List String)
  | [] => .ok []
  | a :: rest => do
      let s ← formatArticle a
      let ss ← buildNewsList rest
      pure (s :: ss)

/-- Outcome of `requests.get`: either the call raised, or a response
with an HTTP status code and a body (`response.json()` may itself
raise a decode error). -/
inductive HttpResult where
  | exn (msg : String)
  | response (status : Nat) (body : Except String Json)

/-- What a call to `fetch_news` produces: the returned list, whether
`requests.get` was executed, and the warning surfaced via
`st.warning`, if any. -/
structure NewsFetchResult where
  items : List String
  networkCalled : Bool
  warning : Option String
deriving Repr, DecidableEq

/-- Python truthiness of an optional string credential: `not api_key`
is true exactly when the credential is `None` or the empty string. -/
def truthy : Option String → Bool
  | none => false
  | some s => !s.isEmpty

/-- The request URL built in `fetch_news`. -/
def newsUrl (ticker : String) (limit : Nat) (api_key : String) : String :=
  "https://newsapi.org/v2/everything?" ++
    "q=" ++ ticker ++ "&" ++
    "sortBy=publishedAt&" ++
    "language=en&" ++
    "pageSize=" ++ toString limit ++ "&" ++
    "apiKey=" ++ api_key

/-- The `try` body of `fetch_news` after `requests.get` returned a
response: the status check, `response.json().get("articles", [])`, and
the comprehension; any raise propagates as `.error`. -/
def newsFromResponse (status : Nat) (body : Except String Json) :
    Except String NewsFetchResult :=
  if status ≠ 200 then
    .ok ⟨[], true, some ("NewsAPI returned status " ++ toString status)⟩
  else
    match body with
    | .error e => .error e
    | .ok j =>
        match dictGet j "articles" (.arr []) with
        | .error e => .error e
        | .ok articlesVal =>
            match pyIter articlesVal with
            | .error e => .error e
            | .ok arts =>
                match buildNewsList arts with
                | .error e => .error e
                | .ok items => .ok ⟨items, true, none⟩

/-- `fetch_news(ticker, api_key, limit)`: short-circuits on a falsy
credential without touching the network; otherwise issues the GET for
`newsUrl` and converts every raise in the `try` block into an empty
list with a warning. -/
def fetch_news (ticker : String) (api_key : Option String) (limit : Nat)
    (http : String → HttpResult) : NewsFetchResult :=
  if !truthy api_key then ⟨[], false, none⟩
  else
    match http (newsUrl ticker limit (api_key.getD "")) with
    | .exn e => ⟨[], true, some ("Failed to fetch news: " ++ e)⟩
    | .response status body =>
        match newsFromResponse status body with
        | .ok r => r
        | .error e => ⟨[], true, some ("Failed to fetch news: " ++ e)⟩

/-- One daily bar of the price series: trading date (as an ordinal),
closing price, traded volume. -/
structure PriceRecord where
  date : Nat
  close : ℚ
  volume : ℚ
deriving Repr, DecidableEq

/-- Outcome of `fetch_stock_data`: the series on success, or one of the
two caught conditions with the message passed to `st.error`. -/
inductive StockFetchOutcome where
  | success (series : List PriceRecord)
  | emptyDataset (msg : String)
  | fetchFailed (msg : String)
deriving Repr, DecidableEq

/-- The series the caller receives: present only in the success case
(`fetch_stock_data` returns `None` in both error branches). -/
def StockFetchOutcome.series : StockFetchOutcome → Option (List PriceRecord)
  | .success s => some s
  | .emptyDataset _ => none
  | .fetchFailed _ => none

/-- `fetch_stock_data(ticker)`: calls `yf.download(ticker, ...)`; a
raise is caught and reported, an empty frame is reported as no data,
otherwise the frame is returned. -/
def fetch_stock_data (ticker : String)
    (download : String → Except String (List PriceRecord)) :
    StockFetchOutcome :=
  match download ticker with
  | .error e => .fetchFailed ("Error fetching stock data: " ++ e)
  | .ok data =>
      if data.isEmpty then
        .emptyDataset "No stock data found for this ticker."
      else .success data

/-- The Close column as a list of scalars, in row order. -/
def closes (data : List PriceRecord) : List ℚ :=
  data.map PriceRecord.close

/-- The float of the Close column at iloc -1: the close of the last row. -/
def lastClose (data : List PriceRecord) : Option ℚ :=
  (data.getLast?).map PriceRecord.close

/-- The float of the Close column max: fold of `max` over the column. -/
def maxClose : List PriceRecord → Option ℚ
  | [] => none
  | r :: rs => some (rs.foldl (fun acc x => max acc x.close) r.close)

/-- The float of the Close column min: fold of `min` over the column. -/
def minClose : List PriceRecord → Option ℚ
  | [] => none
  | r :: rs => some (rs.foldl (fun acc x => min acc x.close) r.close)

/-- The report dict: the three price keys are set (together) only when
`data is not None and not data.empty`; `news` is always set. -/
structure Report where
  last_close : Option ℚ
  highest : Option ℚ
  lowest : Option ℚ
  news : List String
deriving Repr, DecidableEq

/-- `generate_report(ticker, data, news)`. -/
def generate_report (_ticker : String) (data : Option (List PriceRecord))
    (news : List String) : Report :=
  match data with
  | none => ⟨none, none, none, news⟩
  | some d =>
      if d.isEmpty then ⟨none, none, none, news⟩
      else ⟨lastClose d, maxClose d, minClose d, news⟩

/-! ## Property-level definitions used by the theorems -/

/-- A well-formed article as served by the provider: title and source
name given as strings. -/
def mkArticle (p : String × String) : Json :=
  .obj [("title", .str p.1), ("source", .obj [("name", .str p.2)])]

/-- An article the comprehension body accepts without raising. -/
def isArticle (a : Json) : Bool :=
  match formatArticle a with
  | .ok _ => true
  | .error _ => false

/-- The expected top-level response shape: a JSON object whose articles
key holds a list of articles the comprehension accepts. -/
def expectedShape (j : Json) : Bool :=
  match j with
  | .obj fields =>
      match jlookup fields "articles" with
      | some (.arr xs) => xs.all isArticle
      | some _ => false
      | none => false
  | _ => false

/-- How many elements the articles value of a response yields when
iterated (zero when the call raised, the status was rejected upstream,
the body failed to decode, or iteration itself raises). -/
def articleCount (h : HttpResult) : Nat :=
  match h with
  | .exn _ => 0
  | .response _ body =>
      match body with
      | .error _ => 0
      | .ok j =>
          match dictGet j "articles" (.arr []) with
          | .error _ => 0
          | .ok v =>
              match pyIter v with
              | .ok xs => xs.length
              | .error _ => 0

/-- The report invariant of the spec: the three price fields are all
present or all absent, and when present the ordering
lowest ≤ last_close ≤ highest and lowest ≤ highest holds. -/
def reportPriceFieldsConsistent (rep : Report) : Bool :=
  match rep.last_close, rep.highest, rep.lowest with
  | some lc, some hi, some lo =>
      decide (lo ≤ hi) && decide (lo ≤ lc) && decide (lc ≤ hi)
  | none, none, none => true
  | _, _, _ => false

/-! ## Helper lemmas -/

theorem foldl_max_init_le (rs : List PriceRecord) :
    ∀ a : ℚ, a ≤ rs.foldl (fun acc x => max acc x.close) a := by
  induction rs with
  | nil => intro a; exact le_refl a
  | cons r rs ih =>
      intro a
      exact le_trans (le_max_left a r.close) (ih (max a r.close))

theorem foldl_max_mem_le (rs : List PriceRecord) :
    ∀ (a : ℚ) (x : PriceRecord), x ∈ rs →
      x.close ≤ rs.foldl (fun acc x => max acc x.close) a := by
  induction rs with
  | nil => intro a x hx; cases hx
  | cons r rs ih =>
      intro a x hx
      rcases List.mem_cons.mp hx with h | h
      · subst h
        exact le_trans (le_max_right a x.close) (foldl_max_init_le rs _)
      · exact ih _ x h

theorem foldl_max_eq_init_or_mem (rs : List PriceRecord) :
    ∀ a : ℚ, rs.foldl (fun acc x => max acc x.close) a = a ∨
      ∃ x ∈ rs, rs.foldl (fun acc x => max acc x.close) a = x.close := by
  induction rs with
  | nil => intro a; exact Or.inl rfl
  | cons r rs ih =>
      intro a
      rcases ih (max a r.close) with h | ⟨x, hx, heq⟩
      · rcases max_choice a r.close with hm | hm
        · rw [hm] at h
          exact Or.inl (by rw [List.foldl_cons, hm]; exact h)
        · rw [hm] at h
          exact Or.inr ⟨r, List.mem_cons_self r rs, by rw [List.foldl_cons, hm]; exact h⟩
      · exact Or.inr ⟨x, List.mem_cons_of_mem r hx, by simp [List.foldl_cons, heq]⟩

theorem foldl_min_le_init (rs : List PriceRecord) :
    ∀ a : ℚ, rs.foldl (fun acc x => min acc x.close) a ≤ a := by
  induction rs with
  | nil => intro a; exact le_refl a
  | cons r rs ih =>
      intro a
      exact le_trans (ih (min a r.close)) (min_le_left a r.close)

theorem foldl_min_le_mem (rs : List PriceRecord) :
    ∀ (a : ℚ) (x : PriceRecord), x ∈ rs →
      rs.foldl (fun acc x => min acc x.close) a ≤ x.close := by
  induction rs with
  | nil => intro a x hx; cases hx
  | cons r rs ih =>
      intro a x hx
      rcases List.mem_cons.mp hx with h | h
      · subst h
        exact le_trans (foldl_min_le_init rs _) (min_le_right a x.close)
      · exact ih _ x h

theorem foldl_min_eq_init_or_mem (rs : List PriceRecord) :
    ∀ a : ℚ, rs.foldl (fun acc x => min acc x.close) a = a ∨
      ∃ x ∈ rs, rs.foldl (fun acc x => min acc x.close) a = x.close := by
  induction rs with
  | nil => intro a; exact Or.inl rfl
  | cons r rs ih =>
      intro a
      rcases ih (min a r.close) with h | ⟨x, hx, heq⟩
      · rcases min_choice a r.close with hm | hm
        · rw [hm] at h
          exact Or.inl (by rw [List.foldl_cons, hm]; exact h)
        · rw [hm] at h
          exact Or.inr ⟨r, List.mem_cons_self r rs, by rw [List.foldl_cons, hm]; exact h⟩
      · exact Or.inr ⟨x, List.mem_cons_of_mem r hx, by simp [List.foldl_cons, heq]⟩

theorem maxClose_spec (d : List PriceRecord) (hne : d ≠ []) :
    ∃ m, maxClose d = some m ∧ m ∈ closes d ∧ ∀ c ∈ closes d, c ≤ m := by
  match d with
  | [] => exact absurd rfl hne
  | r :: rs =>
      refine ⟨rs.foldl (fun acc x => max acc x.close) r.close, ?_, ?_, ?_⟩
      · rfl
      · rcases foldl_max_eq_init_or_mem rs r.close with h | ⟨x, hx, heq⟩
        · rw [h]; exact List.mem_map_of_mem _ (List.mem_cons_self r rs)
        · rw [heq]; exact List.mem_map_of_mem _ (List.mem_cons_of_mem r hx)
      · intro c hc
        rcases List.mem_map.mp hc with ⟨x, hx, rfl⟩
        rcases List.mem_cons.mp hx with h | h
        · subst h; exact foldl_max_init_le rs _
        · exact foldl_max_mem_le rs _ x h

theorem minClose_spec (d : List PriceRecord) (hne : d ≠ []) :
    ∃ m, minClose d = some m ∧ m ∈ closes d ∧ ∀ c ∈ closes d, m ≤ c := by
  match d with
  | [] => exact absurd rfl hne
  | r :: rs =>
      refine ⟨rs.foldl (fun acc x => min acc x.close) r.close, ?_, ?_, ?_⟩
      · rfl
      · rcases foldl_min_eq_init_or_mem rs r.close with h | ⟨x, hx, heq⟩
        · rw [h]; exact List.mem_map_of_mem _ (List.mem_cons_self r rs)
        · rw [heq]; exact List.mem_map_of_mem _ (List.mem_cons_of_mem r hx)
      · intro c hc
        rcases List.mem_map.mp hc with ⟨x, hx, rfl⟩
        rcases List.mem_cons.mp hx with h | h
        · subst h; exact foldl_min_le_init rs _
        · exact foldl_min_le_mem rs _ x h

theorem lastClose_eq_getLast (d : List PriceRecord) (hne : d ≠ []) :
    lastClose d = some ((d.getLast hne).close) := by
  unfold lastClose
  rw [List.getLast?_eq_getLast d hne]
  rfl

theorem date_le_getLast_of_sorted (d : List PriceRecord) (hne : d ≠ [])
    (hsorted : List.Pairwise (fun a b => a.date < b.date) d) :
    ∀ r ∈ d, r.date ≤ (d.getLast hne).date := by
  induction d with
  | nil => exact absurd rfl hne
  | cons a tl ih =>
      intro r hr
      match tl, hsorted with
      | [], _ =>
          rcases List.mem_cons.mp hr with h | h
          · subst h; exact le_refl _
          · cases h
      | b :: tl2, hsorted =>
          rw [List.getLast_cons (l := b :: tl2) (List.cons_ne_nil b tl2)]
          rcases List.pairwise_cons.mp hsorted with ⟨hhead, htail⟩
          rcases List.mem_cons.mp hr with h | h
          · subst h
            have hmem := List.getLast_mem (l := b :: tl2) (List.cons_ne_nil b tl2)
            exact le_of_lt (hhead _ hmem)
          · exact ih (List.cons_ne_nil b tl2) htail r h

theorem buildNewsList_error_of_malformed (arts : List Json)
    (h : ∃ a ∈ arts, isArticle a = false) :
    ∃ e, buildNewsList arts = .error e := by
  induction arts with
  | nil => rcases h with ⟨a, ha, _⟩; cases ha
  | cons a rest ih =>
      rcases h with ⟨b, hb, hmal⟩
      rcases List.mem_cons.mp hb with hba | hbrest
      · subst hba
        unfold isArticle at hmal
        match hfa : formatArticle b with
        | .ok s => rw [hfa] at hmal; simp at hmal
        | .error e =>
            exact ⟨e, by unfold buildNewsList; rw [hfa]; rfl⟩
      · match hfa : formatArticle a with
        | .error e => exact ⟨e, by unfold buildNewsList; rw [hfa]; rfl⟩
        | .ok s =>
            rcases ih ⟨b, hbrest, hmal⟩ with ⟨e, he⟩
            refine ⟨e, ?_⟩
            unfold buildNewsList
            rw [hfa, he]
            rfl

theorem buildNewsList_length (arts : List Json) :
    ∀ items, buildNewsList arts = .ok items → items.length = arts.length := by
  induction arts with
  | nil =>
      intro items h
      unfold buildNewsList at h
      cases h
      rfl
  | cons a rest ih =>
      intro items h
      unfold buildNewsList at h
      match hfa : formatArticle a with
      | .error e => rw [hfa] at h; cases h
      | .ok s =>
          rw [hfa] at h
          match hbl : buildNewsList rest with
          | .error e => rw [hbl] at h; cases h
          | .ok ss =>
              rw [hbl] at h
              cases h
              simp [ih ss hbl]

theorem fetch_news_of_truthy (t k : String) (l : Nat)
    (http : String → HttpResult) (hk : k.isEmpty = false) :
    fetch_news t (some k) l http =
      (match http (newsUrl t l k) with
        | .exn e => ⟨[], true, some ("Failed to fetch news: " ++ e)⟩
        | .response status body =>
            match newsFromResponse status body with
            | .ok r => r
            | .error e => ⟨[], true, some ("Failed to fetch news: " ++ e)⟩) := by
  simp [fetch_news, truthy, hk]

theorem newsFromResponse_not_200 (status : Nat) (body : Except String Json)
    (h : status ≠ 200) :
    newsFromResponse status body =
      .ok ⟨[], true, some ("NewsAPI returned status " ++ toString status)⟩ := by
  simp [newsFromResponse, h]

theorem buildNewsList_str_cons (x : String) (rest : List Json) :
    buildNewsList (Json.str x :: rest) =
      .error "TypeError: value is not subscriptable with a string key" := rfl

theorem newsFromResponse_200_not_expectedShape (j : Json)
    (h : expectedShape j = false) :
    newsFromResponse 200 (.ok j) = .ok ⟨[], true, none⟩ ∨
      ∃ e, newsFromResponse 200 (.ok j) = .error e := by
  cases j with
  | obj fields =>
      match hl : jlookup fields "articles" with
      | none =>
          left
          simp [newsFromResponse, dictGet, hl, pyIter, buildNewsList]
      | some v =>
          cases v with
          | arr xs =>
              have h2 : xs.all isArticle = false := by
                simpa [expectedShape, hl] using h
              have hmal : ∃ a ∈ xs, isArticle a = false := by
                rcases List.all_eq_false.mp h2 with ⟨a, ha, hna⟩
                exact ⟨a, ha, by simpa using hna⟩
              rcases buildNewsList_error_of_malformed xs hmal with ⟨e, he⟩
              right
              exact ⟨e, by simp [newsFromResponse, dictGet, hl, pyIter, he]⟩
          | str s =>
              match hs : s.data with
              | [] =>
                  left
                  simp [newsFromResponse, dictGet, hl, pyIter, String.toList, hs,
                    buildNewsList]
              | c :: cs =>
                  right
                  refine ⟨"TypeError: value is not subscriptable with a string key", ?_⟩
                  simp [newsFromResponse, dictGet, hl, pyIter, String.toList, hs,
                    buildNewsList_str_cons]
          | obj fields2 =>
              cases fields2 with
              | nil =>
                  left
                  simp [newsFromResponse, dictGet, hl, pyIter, buildNewsList]
              | cons p ps =>
                  right
                  refine ⟨"TypeError: value is not subscriptable with a string key", ?_⟩
                  simp [newsFromResponse, dictGet, hl, pyIter, buildNewsList_str_cons]
          | num q =>
              right
              exact ⟨"TypeError: value is not iterable",
                by simp [newsFromResponse, dictGet, hl, pyIter]⟩
          | bool b =>
              right
              exact ⟨"TypeError: value is not iterable",
                by simp [newsFromResponse, dictGet, hl, pyIter]⟩
          | null =>
              right
              exact ⟨"TypeError: value is not iterable",
                by simp [newsFromResponse, dictGet, hl, pyIter]⟩
  | str s =>
      right
      exact ⟨"AttributeError: value has no attribute get",
        by simp [newsFromResponse, dictGet]⟩
  | num q =>
      right
      exact ⟨"AttributeError: value has no attribute get",
        by simp [newsFromResponse, dictGet]⟩
  | bool b =>
      right
      exact ⟨"AttributeError: value has no attribute get",
        by simp [newsFromResponse, dictGet]⟩
  | null =>
      right
      exact ⟨"AttributeError: value has no attribute get",
        by simp [newsFromResponse, dictGet]⟩
  | arr elems =>
      right
      exact ⟨"AttributeError: value has no attribute get",
        by simp [newsFromResponse, dictGet]⟩

theorem formatArticle_mkArticle (p : String × String) :
    formatArticle (mkArticle p) = .ok (p.1 ++ " (" ++ p.2 ++ ")") := rfl

theorem buildNewsList_map_mkArticle (pairs : List (String × String)) :
    buildNewsList (pairs.map mkArticle) =
      .ok (pairs.map (fun p => p.1 ++ " (" ++ p.2 ++ ")")) := by
  induction pairs with
  | nil => rfl
  | cons p ps ih =>
      show buildNewsList (mkArticle p :: ps.map mkArticle) = _
      unfold buildNewsList
      rw [formatArticle_mkArticle, ih]
      rfl

theorem fetch_news_exn (t k : String) (l : Nat) (hk : k.isEmpty = false)
    (e : String) :
    fetch_news t (some k) l (fun _ => .exn e) =
      ⟨[], true, some ("Failed to fetch news: " ++ e)⟩ := by
  simp [fetch_news, truthy, hk]

theorem fetch_news_response (t k : String) (l : Nat) (hk : k.isEmpty = false)
    (status : Nat) (body : Except String Json) :
    fetch_news t (some k) l (fun _ => .response status body) =
      (match newsFromResponse status body with
        | .ok r => r
        | .error e => ⟨[], true, some ("Failed to fetch news: " ++ e)⟩) := by
  simp [fetch_news, truthy, hk]

theorem newsFromResponse_200_articles (arts : List Json) (items : List String)
    (hb : buildNewsList arts = .ok items) :
    newsFromResponse 200 (.ok (.obj [("articles", .arr arts)])) =
      .ok ⟨items, true, none⟩ := by
  simp [newsFromResponse, dictGet, jlookup, pyIter, hb]

/-! ## Claim theorems -/

/-- C1: for every ticker, every non-empty chronologically ordered price
series and every news list, the report of `generate_report` carries as
`last_close` the close of the chronologically last record (the record no
other record postdates), as `highest` the maximum close over the whole
series, and as `lowest` the minimum close over the whole series, each a
bare scalar. -/
theorem generate_report_summary_fields (ticker : String)
    (d : List PriceRecord) (news : List String) (hne : d ≠ [])
    (hsorted : List.Pairwise (fun a b => a.date < b.date) d) :
    (generate_report ticker (some d) news).last_close =
      some ((d.getLast hne).close) ∧
    (∀ r ∈ d, r.date ≤ (d.getLast hne).date) ∧
    (∃ hi, (generate_report ticker (some d) news).highest = some hi ∧
      hi ∈ closes d ∧ ∀ c ∈ closes d, c ≤ hi) ∧
    (∃ lo, (generate_report ticker (some d) news).lowest = some lo ∧
      lo ∈ closes d ∧ ∀ c ∈ closes d, lo ≤ c) := by
  have hie : d.isEmpty = false := by
    cases d with
    | nil => exact absurd rfl hne
    | cons r rs => rfl
  refine ⟨?_, date_le_getLast_of_sorted d hne hsorted, ?_, ?_⟩
  · simp [generate_report, hie, lastClose_eq_getLast d hne]
  · rcases maxClose_spec d hne with ⟨m, hm, hmem, hbd⟩
    exact ⟨m, by simp [generate_report, hie, hm], hmem, hbd⟩
  · rcases minClose_spec d hne with ⟨m, hm, hmem, hbd⟩
    exact ⟨m, by simp [generate_report, hie, hm], hmem, hbd⟩

/-- Witness for C1 at a concrete three-day series: last close 180,
highest 200, lowest 150. -/
theorem generate_report_summary_fields_witness :
    (generate_report "AAPL"
        (some [⟨0, 150, 1⟩, ⟨1, 200, 1⟩, ⟨2, 180, 1⟩]) []).last_close =
      some 180 ∧
    (generate_report "AAPL"
        (some [⟨0, 150, 1⟩, ⟨1, 200, 1⟩, ⟨2, 180, 1⟩]) []).highest =
      some 200 ∧
    (generate_report "AAPL"
        (some [⟨0, 150, 1⟩, ⟨1, 200, 1⟩, ⟨2, 180, 1⟩]) []).lowest =
      some 150 := by
  have h := generate_report_summary_fields "AAPL"
    [⟨0, 150, 1⟩, ⟨1, 200, 1⟩, ⟨2, 180, 1⟩] [] (by decide) (by decide)
  refine ⟨by simpa using h.1, ?_, ?_⟩
  · rcases h.2.2.1 with ⟨hi, hhi, _, hbd⟩
    have h200 : hi = 200 := by
      have := hbd 200 (by decide)
      have h1 : (200 : ℚ) ⊔ 180 ⊔ 150 = 200 := by decide
      have h2 : maxClose [⟨0, 150, 1⟩, ⟨1, 200, 1⟩, ⟨2, 180, 1⟩] = some 200 := by
        decide
      have h3 := hhi
      simp [generate_report] at h3
      rw [h2] at h3
      exact (Option.some_inj.mp h3).symm
    rw [hhi, h200]
  · rcases h.2.2.2 with ⟨lo, hlo, _, hbd⟩
    have h150 : lo = 150 := by
      have h2 : minClose [⟨0, 150, 1⟩, ⟨1, 200, 1⟩, ⟨2, 180, 1⟩] = some 150 := by
        decide
      have h3 := hlo
      simp [generate_report] at h3
      rw [h2] at h3
      exact (Option.some_inj.mp h3).symm
    rw [hlo, h150]

/-- C2: for every ticker, every optional series and every news list,
`generate_report` is total and returns a report whose three price fields
are all present or all absent, and that, when present, satisfy
lowest ≤ highest, lowest ≤ last_close and last_close ≤ highest. -/
theorem generate_report_price_fields_invariant (ticker : String)
    (data : Option (List PriceRecord)) (news : List String) :
    reportPriceFieldsConsistent (generate_report ticker data news) = true := by
  match data with
  | none => rfl
  | some [] => rfl
  | some (r :: rs) =>
      have hne : (r :: rs) ≠ ([] : List PriceRecord) := List.cons_ne_nil r rs
      rcases maxClose_spec (r :: rs) hne with ⟨hi, hhi, hhimem, hhibd⟩
      rcases minClose_spec (r :: rs) hne with ⟨lo, hlo, hlomem, hlobd⟩
      have hlast := lastClose_eq_getLast (r :: rs) hne
      have hlcmem : ((r :: rs).getLast hne).close ∈ closes (r :: rs) :=
        List.mem_map_of_mem _ (List.getLast_mem hne)
      have hrep : generate_report ticker (some (r :: rs)) news =
          ⟨some (((r :: rs).getLast hne).close), some hi, some lo, news⟩ := by
        simp [generate_report, hlast, hhi, hlo]
      rw [hrep]
      unfold reportPriceFieldsConsistent
      simp only [Bool.and_eq_true, decide_eq_true_eq]
      exact ⟨⟨hlobd hi hhimem, hlobd _ hlcmem⟩, hhibd _ hlcmem⟩

/-- C3: `fetch_stock_data` converts a raising provider call into the
FetchFailed outcome carrying the cause message, and a successful call
with zero rows into the EmptyDataset outcome; in both cases the caller
receives no series. Totality of the definition reflects that no
exception propagates. -/
theorem fetch_stock_data_error_handling (ticker : String)
    (download : String → Except String (List PriceRecord)) :
    (∀ e, download ticker = .error e →
      fetch_stock_data ticker download =
          .fetchFailed ("Error fetching stock data: " ++ e) ∧
        (fetch_stock_data ticker download).series = none) ∧
    (download ticker = .ok [] →
      fetch_stock_data ticker download =
          .emptyDataset "No stock data found for this ticker." ∧
        (fetch_stock_data ticker download).series = none) := by
  constructor
  · intro e he
    have : fetch_stock_data ticker download =
        .fetchFailed ("Error fetching stock data: " ++ e) := by
      unfold fetch_stock_data
      rw [he]
    exact ⟨this, by rw [this]; rfl⟩
  · intro he
    have : fetch_stock_data ticker download =
        .emptyDataset "No stock data found for this ticker." := by
      unfold fetch_stock_data
      rw [he]
      rfl
    exact ⟨this, by rw [this]; rfl⟩

/-- Witness for C3: a raising provider and an empty-frame provider, both
surfaced as an absent series. -/
theorem fetch_stock_data_error_handling_witness :
    fetch_stock_data "AAPL" (fun _ => .error "boom") =
      .fetchFailed "Error fetching stock data: boom" ∧
    (fetch_stock_data "ZZZZINVALID" (fun _ => .ok [])).series = none :=
  ⟨((fetch_stock_data_error_handling "AAPL" (fun _ => .error "boom")).1
      "boom" rfl).1,
    ((fetch_stock_data_error_handling "ZZZZINVALID" (fun _ => .ok [])).2
      rfl).2⟩

/-- C4: with a present credential, every exception in the news path is
caught at the `fetch_news` boundary and converted into an empty list
with a warning: a raising `requests.get`, a raising `response.json()`,
and a malformed article in the articles list (which aborts the whole
comprehension, so the result is empty, never a partial list). -/
theorem fetch_news_catches_exceptions (ticker k : String) (limit : Nat)
    (hk : k.isEmpty = false) :
    (∀ e, fetch_news ticker (some k) limit (fun _ => .exn e) =
        ⟨[], true, some ("Failed to fetch news: " ++ e)⟩) ∧
    (∀ e, fetch_news ticker (some k) limit (fun _ => .response 200 (.error e)) =
        ⟨[], true, some ("Failed to fetch news: " ++ e)⟩) ∧
    (∀ arts : List Json, (∃ a ∈ arts, isArticle a = false) →
        (fetch_news ticker (some k) limit
            (fun _ => .response 200 (.ok (.obj [("articles", .arr arts)])))).items
          = [] ∧
        (fetch_news ticker (some k) limit
            (fun _ => .response 200 (.ok (.obj [("articles", .arr arts)])))).warning.isSome
          = true) := by
  refine ⟨fetch_news_exn ticker k limit hk, ?_, ?_⟩
  · intro e
    rw [fetch_news_response ticker k limit hk]
    simp [newsFromResponse]
  · intro arts hmal
    rcases buildNewsList_error_of_malformed arts hmal with ⟨e, he⟩
    have hnr : newsFromResponse 200 (.ok (.obj [("articles", .arr arts)])) =
        .error e := by
      simp [newsFromResponse, dictGet, jlookup, pyIter, he]
    rw [fetch_news_response ticker k limit hk, hnr]
    exact ⟨rfl, rfl⟩

/-- Witness for C4: a network exception, a JSON decode exception, and a
single malformed article among well-formed ones, all yielding the empty
list with a warning. -/
theorem fetch_news_catches_exceptions_witness :
    fetch_news "AAPL" (some "key") 5 (fun _ => .exn "connection refused") =
      ⟨[], true, some "Failed to fetch news: connection refused"⟩ ∧
    fetch_news "AAPL" (some "key") 5
        (fun _ => .response 200 (.error "Expecting value")) =
      ⟨[], true, some "Failed to fetch news: Expecting value"⟩ ∧
    (fetch_news "AAPL" (some "key") 5
        (fun _ => .response 200 (.ok (.obj [("articles",
          .arr [mkArticle ("T1", "S1"), .obj [("title", .str "T2")]])])))).items
      = [] := by
  have h := fetch_news_catches_exceptions "AAPL" "key" 5 rfl
  refine ⟨h.1 "connection refused", h.2.1 "Expecting value", ?_⟩
  exact (h.2.2 [mkArticle ("T1", "S1"), .obj [("title", .str "T2")]]
    ⟨.obj [("title", .str "T2")], by simp, rfl⟩).1

/-- C5 counterexample: status 201 is a 2xx status, yet with a credential
present and a well-formed one-article body the code warns about the
status and returns the empty list, while the very same body at status
200 is extracted; so a 2xx status other than 200 is treated as a
failure, contrary to the claim. -/
theorem fetch_news_status_2xx_counterexample :
    fetch_news "AAPL" (some "key") 5
        (fun _ => .response 201 (.ok (.obj [("articles",
          .arr [mkArticle ("T1", "S1")])]))) =
      ⟨[], true, some "NewsAPI returned status 201"⟩ ∧
    fetch_news "AAPL" (some "key") 5
        (fun _ => .response 200 (.ok (.obj [("articles",
          .arr [mkArticle ("T1", "S1")])]))) =
      ⟨["T1 (S1)"], true, none⟩ := ⟨rfl, rfl⟩

/-- C5 amended: with a present credential, any status other than exactly
200 yields a warning naming the status and the empty list, and status
200 proceeds to extract the articles array. -/
theorem fetch_news_status_check (t k : String) (l : Nat)
    (hk : k.isEmpty = false) :
    (∀ (status : Nat) (body : Except String Json), status ≠ 200 →
      fetch_news t (some k) l (fun _ => .response status body) =
        ⟨[], true, some ("NewsAPI returned status " ++ toString status)⟩) ∧
    (∀ (arts : List Json) (items : List String),
      buildNewsList arts = .ok items →
      fetch_news t (some k) l
          (fun _ => .response 200 (.ok (.obj [("articles", .arr arts)]))) =
        ⟨items, true, none⟩) := by
  constructor
  · intro status body hs
    rw [fetch_news_response t k l hk, newsFromResponse_not_200 status body hs]
  · intro arts items hb
    rw [fetch_news_response t k l hk, newsFromResponse_200_articles arts items hb]

/-- Witness for C5 amended: HTTP 429 yields the warning and empty list;
HTTP 200 with one article extracts it. -/
theorem fetch_news_status_check_witness :
    fetch_news "AAPL" (some "key") 5 (fun _ => .response 429 (.ok (.obj []))) =
      ⟨[], true, some "NewsAPI returned status 429"⟩ ∧
    fetch_news "AAPL" (some "key") 5
        (fun _ => .response 200 (.ok (.obj [("articles",
          .arr [mkArticle ("T1", "S1")])]))) =
      ⟨["T1 (S1)"], true, none⟩ :=
  ⟨((fetch_news_status_check "AAPL" "key" 5 rfl).1 429 (.ok (.obj []))
      (by decide)),
    ((fetch_news_status_check "AAPL" "key" 5 rfl).2 [mkArticle ("T1", "S1")]
      ["T1 (S1)"] rfl)⟩

/-- C6: with an absent credential, `fetch_news` returns the empty list
without executing the network call, for every ticker, limit and every
possible behaviour of the network. -/
theorem fetch_news_absent_credential (t : String) (l : Nat)
    (http : String → HttpResult) :
    fetch_news t none l http = ⟨[], false, none⟩ := rfl

/-- C7: with a present credential and a 200 response whose articles
array holds well-formed articles, `fetch_news` maps each article to
its title followed by its source name in parentheses, in exactly the
order the provider returned, with no re-sorting, deduplication or
filtering. -/
theorem fetch_news_formats_in_order (t k : String) (l : Nat)
    (hk : k.isEmpty = false) (pairs : List (String × String)) :
    fetch_news t (some k) l
        (fun _ => .response 200 (.ok (.obj [("articles",
          .arr (pairs.map mkArticle))]))) =
      ⟨pairs.map (fun p => p.1 ++ " (" ++ p.2 ++ ")"), true, none⟩ := by
  rw [fetch_news_response t k l hk,
    newsFromResponse_200_articles (pairs.map mkArticle) _
      (buildNewsList_map_mkArticle pairs)]

/-- Witness for C7, Scenario 5: three articles with titles T1, T2, T3
and sources S1, S2, S3 yield the three formatted strings in order. -/
theorem fetch_news_formats_in_order_witness :
    fetch_news "AAPL" (some "key") 5
        (fun _ => .response 200 (.ok (.obj [("articles",
          .arr [mkArticle ("T1", "S1"), mkArticle ("T2", "S2"),
            mkArticle ("T3", "S3")])]))) =
      ⟨["T1 (S1)", "T2 (S2)", "T3 (S3)"], true, none⟩ :=
  fetch_news_formats_in_order "AAPL" "key" 5 rfl
    [("T1", "S1"), ("T2", "S2"), ("T3", "S3")]

theorem fetch_news_length_le_articleCount (t : String) (k : Option String)
    (l : Nat) (http : String → HttpResult) :
    (fetch_news t k l http).items.length ≤
      articleCount (http (newsUrl t l (k.getD ""))) := by
  match htr : truthy k with
  | false => simp [fetch_news, htr]
  | true =>
      rw [fetch_news]
      rw [htr]
      simp only [Bool.not_true, Bool.false_eq_true, if_false]
      match hh : http (newsUrl t l (k.getD "")) with
      | .exn e => simp [articleCount]
      | .response status body =>
          by_cases hs : status = 200
          · subst hs
            match body with
            | .error e => simp [newsFromResponse, articleCount]
            | .ok j =>
                match hd : dictGet j "articles" (.arr []) with
                | .error e => simp [newsFromResponse, hd, articleCount]
                | .ok v =>
                    match hp : pyIter v with
                    | .error e => simp [newsFromResponse, hd, hp, articleCount]
                    | .ok arts =>
                        match hb : buildNewsList arts with
                        | .error e =>
                            simp [newsFromResponse, hd, hp, hb, articleCount]
                        | .ok items =>
                            have hlen := buildNewsList_length arts items hb
                            simp [newsFromResponse, hd, hp, hb, articleCount, hlen]
          · simp [newsFromResponse_not_200 status body hs]

/-- C8 counterexample: with limit 1 and a 200 response carrying two
well-formed articles, `fetch_news` returns both, so the result length
exceeds the limit: the code passes the limit only as the pageSize query
parameter and never truncates locally. -/
theorem fetch_news_length_counterexample :
    ¬ ((fetch_news "AAPL" (some "key") 1
        (fun _ => .response 200 (.ok (.obj [("articles",
          .arr [mkArticle ("T1", "S1"), mkArticle ("T2", "S2")])])))).items.length
      ≤ 1) := by
  decide

/-- C8 amended: the result length of `fetch_news` is bounded by the
number of elements of the articles value of the response; in particular
it is at most the limit whenever the provider honors the requested
pageSize and returns at most that many articles. -/
theorem fetch_news_length_bounded (t : String) (k : Option String) (l : Nat)
    (http : String → HttpResult)
    (hprov : articleCount (http (newsUrl t l (k.getD ""))) ≤ l) :
    (fetch_news t k l http).items.length ≤ l :=
  le_trans (fetch_news_length_le_articleCount t k l http) hprov

/-- Witness for C8 amended: one article in the response, limit 5. -/
theorem fetch_news_length_bounded_witness :
    (fetch_news "AAPL" (some "key") 5
        (fun _ => .response 200 (.ok (.obj [("articles",
          .arr [mkArticle ("T1", "S1")])])))).items.length ≤ 5 :=
  fetch_news_length_bounded "AAPL" (some "key") 5
    (fun _ => .response 200 (.ok (.obj [("articles",
      .arr [mkArticle ("T1", "S1")])])))
    (by decide)

/-- C9: with a present credential, a 2xx response whose decoded body
does not have the expected shape (an object with an articles key
holding a list of well-formed articles) always yields the empty list:
a missing key falls back to the empty default, and every other
malformed shape either iterates to nothing or raises and is caught. -/
theorem fetch_news_malformed_shape_empty (t k : String) (l : Nat)
    (hk : k.isEmpty = false) (status : Nat)
    (h2xx : 200 ≤ status ∧ status < 300) (j : Json)
    (hshape : expectedShape j = false) :
    (fetch_news t (some k) l (fun _ => .response status (.ok j))).items = [] := by
  rw [fetch_news_response t k l hk]
  by_cases hs : status = 200
  · subst hs
    rcases newsFromResponse_200_not_expectedShape j hshape with h | ⟨e, he⟩
    · rw [h]
    · rw [he]
  · rw [newsFromResponse_not_200 status (.ok j) hs]

/-- Witness for C9: a 204 response whose body is JSON null yields the
empty list. -/
theorem fetch_news_malformed_shape_empty_witness :
    (fetch_news "AAPL" (some "key") 5
        (fun _ => .response 204 (.ok .null))).items = [] :=
  fetch_news_malformed_shape_empty "AAPL" "key" 5 rfl 204 (by decide) .null rfl

/-- C10: an empty-string credential is falsy in Python, so `fetch_news`
behaves exactly as with an absent credential: empty list, no network
call, for every ticker, limit and network behaviour. -/
theorem fetch_news_empty_credential_like_absent (t : String) (l : Nat)
    (http : String → HttpResult) :
    fetch_news t (some "") l http = fetch_news t none l http ∧
    (fetch_news t (some "") l http).networkCalled = false ∧
    (fetch_news t (some "") l http).items = [] := ⟨rfl, rfl, rfl⟩

/-- C7 counterexample: status 201 is a 2xx status and the articles array
holds one well-formed article, yet `fetch_news` does not return the
formatted string for it: the code tests status_code != 200, warns about
the status and returns the empty list, so the claim quantified over
every 2xx response is false. -/
theorem fetch_news_formats_2xx_counterexample :
    (fetch_news "AAPL" (some "key") 5
        (fun _ => .response 201 (.ok (.obj [("articles",
          .arr [mkArticle ("T1", "S1")])])))).items ≠ ["T1 (S1)"] ∧
    (fetch_news "AAPL" (some "key") 5
        (fun _ => .response 201 (.ok (.obj [("articles",
          .arr [mkArticle ("T1", "S1")])])))).items = [] := by
  constructor
  · decide
  · rfl
